import Mathlib

/-!
Verification of the core backup engine and devmapper storage driver of the
convoy / volmgr repository.

The Go sources are shallowly embedded as executable Lean definitions:

* `blockstore/blockstore.go` — the backup engine: `mergeSnapshotMap`,
  `Register`, `BackupSnapshot`, `RemoveSnapshot` (with GC).
* `objectstore/config.go` — the on-store path layout (`getVolumePath`,
  `getBlockFilePath`, ...).
* `devmapper/devmapper.go` — the thin-pool storage driver: `CreateVolume`,
  `DeleteVolume`, `DeleteSnapshot`, `HasSnapshot`.

Go `int64` values are modelled as `Int`, Go maps and the stores persisted
key-to-record files as association lists, and the remote object store and
the kernel thin-pool as explicit state records.  Functions that perform IO
return an `Except String` result, or a pair of a final state and a result
when side effects survive a failure (as they do in Go).
-/

set_option maxHeartbeats 1000000
set_option linter.dupNamespace false

namespace Convoy

/-! ### Association-list primitives

Go map / config-file lookup, update and removal are modelled by assoc
lists.  `alookup` returns the first binding, `aupdate` replaces the first
binding (or appends), `aremove` drops every binding of the key. -/

deriving instance DecidableEq for Except

def alookup {α β : Type} [DecidableEq α] : List (α × β) → α → Option β
  | [], _ => none
  | (a, b) :: rest, k => if a = k then some b else alookup rest k

def aupdate {α β : Type} [DecidableEq α] : List (α × β) → α → β → List (α × β)
  | [], k, v => [(k, v)]
  | (a, b) :: rest, k, v => if a = k then (k, v) :: rest else (a, b) :: aupdate rest k v

def aremove {α β : Type} [DecidableEq α] : List (α × β) → α → List (α × β)
  | [], _ => []
  | (a, b) :: rest, k => if a = k then aremove rest k else (a, b) :: aremove rest k

/-! ### Data model of the backup engine (blockstore/blockstore.go) -/

/-- One entry of a SnapshotMap: `BlockMapping` of blockstore.go. -/
structure BlockMapping where
  Offset : Int
  BlockChecksum : String
deriving DecidableEq, Repr

/-- The on-store snapshot manifest: `SnapshotMap` of blockstore.go. -/
structure SnapshotMap where
  ID : String
  Blocks : List BlockMapping
deriving DecidableEq, Repr

/-- The registered store record: `BlockStore` of blockstore.go. -/
structure BlockStore where
  UUID : String
  Kind : String
  BlockSize : Int
deriving DecidableEq, Repr

/-- The remote per-volume record: `Volume` of blockstore.go. -/
structure Volume where
  Size : Int
  Base : String
  LastSnapshotID : String
deriving DecidableEq, Repr

/-- `DEFAULT_BLOCK_SIZE` of blockstore.go. -/
def DEFAULT_BLOCK_SIZE : Int := 2097152

/-- The merge loop of `mergeSnapshotMap` (blockstore.go lines 338-360).
The Go code walks both sorted lists with indices `d` and `l`, emitting the
delta entry on equal offsets and advancing the list with the strictly
smaller offset, then appends the unexhausted tail; this is exactly the
following recursion. -/
def mergeBlocks : List BlockMapping → List BlockMapping → List BlockMapping
  | [], lastBlocks => lastBlocks
  | dB :: ds, [] => dB :: ds
  | dB :: ds, lB :: ls =>
    if dB.Offset = lB.Offset then dB :: mergeBlocks ds ls
    else if dB.Offset < lB.Offset then dB :: mergeBlocks ds (lB :: ls)
    else lB :: mergeBlocks (dB :: ds) ls
termination_by ds ls => ds.length + ls.length

/-- `mergeSnapshotMap` of blockstore.go (lines 329-363): with no parent map
the delta map itself (retagged) is the result, otherwise the two sorted
block lists are merged. -/
def mergeSnapshotMap (snapshotID : String) (deltaMap : SnapshotMap)
    (lastMap : Option SnapshotMap) : SnapshotMap :=
  match lastMap with
  | none => { deltaMap with ID := snapshotID }
  | some lm => { ID := snapshotID, Blocks := mergeBlocks deltaMap.Blocks lm.Blocks }

/-- The offsets of a block list. -/
def offsets (l : List BlockMapping) : List Int := l.map BlockMapping.Offset

/-- Strictly increasing in `Offset` — the sortedness invariant of a
SnapshotMap block list. -/
def BlocksSorted (l : List BlockMapping) : Prop :=
  l.Pairwise (fun a b => a.Offset < b.Offset)

instance (l : List BlockMapping) : Decidable (BlocksSorted l) := by
  unfold BlocksSorted; infer_instance

/-! ### On-store layout (objectstore/config.go)

Go slices strings by byte index and panics when an index is out of
range; `goSlice` returns `none` in exactly the panicking cases (volume
UUIDs and checksums are ASCII, so byte and character indexing agree). -/

def goSlice (s : String) (i j : Nat) : Option String :=
  if i ≤ j ∧ j ≤ s.length then some (String.mk ((s.data.drop i).take (j - i))) else none

def BLOCKSTORE_BASE : String := "rancher-objectstore"
def VOLUME_DIRECTORY : String := "volumes"
def VOLUME_CONFIG_FILE : String := "volume.cfg"
def VOLUME_SEPARATE_LAYER1 : Nat := 2
def VOLUME_SEPARATE_LAYER2 : Nat := 4
def SNAPSHOTS_DIRECTORY : String := "snapshots"
def BLOCKS_DIRECTORY : String := "blocks"
def BLOCK_SEPARATE_LAYER1 : Nat := 2
def BLOCK_SEPARATE_LAYER2 : Nat := 4

/-- `filepath.Join` of two nonempty clean components. -/
def joinPath (a b : String) : String :=
  if a.data.getLast? = some '/' then a ++ b else a ++ "/" ++ b

/-- `getVolumePath` of objectstore/config.go (lines 181-185): two-level
fan-out on the first four characters of the volume UUID.  `none` models
the Go slice panic on a short UUID. -/
def getVolumePath (volumeID : String) : Option String :=
  match goSlice volumeID 0 VOLUME_SEPARATE_LAYER1,
        goSlice volumeID VOLUME_SEPARATE_LAYER1 VOLUME_SEPARATE_LAYER2 with
  | some volumeLayer1, some volumeLayer2 =>
    some (joinPath (joinPath (joinPath (joinPath BLOCKSTORE_BASE VOLUME_DIRECTORY)
      volumeLayer1) volumeLayer2) volumeID)
  | _, _ => none

/-- `getVolumeFilePath` of objectstore/config.go (lines 187-191). -/
def getVolumeFilePath (volumeID : String) : Option String :=
  (getVolumePath volumeID).map (fun volumePath => joinPath volumePath VOLUME_CONFIG_FILE)

/-- `getSnapshotsPath` of objectstore/config.go (lines 193-195). -/
def getSnapshotsPath (volumeID : String) : Option String :=
  (getVolumePath volumeID).map (fun p => joinPath p SNAPSHOTS_DIRECTORY ++ "/")

/-- `getBlocksPath` of objectstore/config.go (lines 197-199). -/
def getBlocksPath (volumeID : String) : Option String :=
  (getVolumePath volumeID).map (fun p => joinPath p BLOCKS_DIRECTORY ++ "/")

/-- `getBlockFilePath` of objectstore/config.go (lines 201-208): fans out
on the first four characters of the checksum under the volume subtree. -/
def getBlockFilePath (volumeID checksum : String) : Option String :=
  match getBlocksPath volumeID, goSlice checksum 0 BLOCK_SEPARATE_LAYER1,
        goSlice checksum BLOCK_SEPARATE_LAYER1 BLOCK_SEPARATE_LAYER2 with
  | some blocksPath, some blockSubDirLayer1, some blockSubDirLayer2 =>
    some (joinPath (joinPath (joinPath blocksPath blockSubDirLayer1) blockSubDirLayer2)
      (checksum ++ ".blk"))
  | _, _, _ => none

/-! ### The delta structure and the storage-driver interface -/

/-- Modelled from the spec: one `(offset, length)` range of the
`metadata.Mappings` delta returned by `CompareSnapshot` (the metadata
package is not among the sources; §4.2 of the spec describes the
structure). -/
structure Mapping where
  Offset : Int
  Size : Int
deriving DecidableEq, Repr

/-- Modelled from the spec: the `metadata.Mappings` delta — the mapping
ranges plus the driver block size in bytes. -/
structure Mappings where
  Mappings : List Mapping
  BlockSize : Int
deriving DecidableEq, Repr

/-- The storage-driver operations `BackupSnapshot` consumes
(the drivers.Driver interface of drivers/drivers.go), as pure
environment functions returning the Go results. -/
structure SDriver (Data : Type) where
  hasSnapshot : String → String → Bool
  compareSnapshot : String → String → String → Except String Mappings
  openSnapshot : String → String → Except String Unit
  readSnapshot : String → String → Int → Except String Data

/-! ### The backup-engine store state

The remote object store is modelled logically: `volumes` holds the
volume.cfg records keyed by volume UUID, `snapshotCfgs` the SnapshotMap
files keyed by (volume UUID, snapshot UUID), and `blobs` the block blobs
keyed by (volume UUID, checksum).  The keys correspond to the on-store
paths via `getVolumeFilePath`, `getSnapshotsPath` and `getBlockFilePath`.
`storeCfg` is the registered store record (the local copy loaded by
`getBlockstoreCfgAndDriver`). -/

structure StoreState (Data : Type) where
  storeCfg : BlockStore
  volumes : List (String × Volume)
  snapshotCfgs : List ((String × String) × SnapshotMap)
  blobs : List ((String × String) × Data)
deriving DecidableEq

/-- Trace of the driver snapshot activations issued by `BackupSnapshot`. -/
inductive DEvent
  | openSnap (id volumeID : String)
  | closeSnap (id volumeID : String)
deriving DecidableEq, Repr

/-- The result of `BackupSnapshot`: side effects survive a failure in Go,
so the final state accompanies the error. -/
structure BackupResult (Data : Type) where
  state : StoreState Data
  events : List DEvent
  result : Except String Unit
deriving DecidableEq

/-- The parent-selection step of `BackupSnapshot` (blockstore.go lines
236-257): start from `Volume.LastSnapshotID` and fall back to the empty
string (full backup) when it is empty, equal to the snapshot being backed
up, or not present in local storage. -/
def backupParent (volume : Volume) (snapshotID volumeID : String)
    (hasSnap : String → String → Bool) : String :=
  if volume.LastSnapshotID = "" then ""
  else if volume.LastSnapshotID = snapshotID then ""
  else if hasSnap volume.LastSnapshotID volumeID then volume.LastSnapshotID
  else ""

/-- Loading the parent SnapshotMap (blockstore.go lines 249-255);
`lastSnapshotID = ""` means full backup and nothing is loaded. -/
def backupLastMap {Data : Type} (s : StoreState Data) (lastSnapshotID volumeID : String) :
    Except String (Option SnapshotMap) :=
  if lastSnapshotID = "" then .ok none
  else
    match alookup s.snapshotCfgs (volumeID, lastSnapshotID) with
    | none => .error "cannot find snapshot map in blockstore"
    | some m => .ok (some m)

/-- One iteration of the upload loop (blockstore.go lines 279-310): read
the block, checksum it, skip the write when the blob already exists
(deduplication), write the blob otherwise, and append the mapping entry. -/
def backupOneBlock {Data : Type} (sd : SDriver Data) (checksum : Data → String)
    (snapshotID volumeID : String) (offset : Int)
    (blobs : List ((String × String) × Data)) (acc : List BlockMapping) :
    Except String (List ((String × String) × Data) × List BlockMapping) :=
  match sd.readSnapshot snapshotID volumeID offset with
  | .error e => .error e
  | .ok block =>
    let cs := checksum block
    if (alookup blobs (volumeID, cs)).isSome then
      .ok (blobs, acc ++ [{ Offset := offset, BlockChecksum := cs }])
    else
      .ok (aupdate blobs (volumeID, cs) block, acc ++ [{ Offset := offset, BlockChecksum := cs }])

/-- The inner loop over the block indices `i < d.Size / blockSize` of one
delta mapping (blockstore.go line 279). -/
def backupBlocksLoop {Data : Type} (sd : SDriver Data) (checksum : Data → String)
    (snapshotID volumeID : String) (blockSize : Int) (d : Mapping) :
    Nat → Int → List ((String × String) × Data) → List BlockMapping →
    List ((String × String) × Data) × List BlockMapping × Except String Unit
  | 0, _, blobs, acc => (blobs, acc, .ok ())
  | n + 1, i, blobs, acc =>
    match backupOneBlock sd checksum snapshotID volumeID (d.Offset + i * blockSize) blobs acc with
    | .error e => (blobs, acc, .error e)
    | .ok (blobs1, acc1) =>
      backupBlocksLoop sd checksum snapshotID volumeID blockSize d n (i + 1) blobs1 acc1

/-- The outer loop over `delta.Mappings` (blockstore.go lines 277-311). -/
def backupMappingsLoop {Data : Type} (sd : SDriver Data) (checksum : Data → String)
    (snapshotID volumeID : String) (blockSize : Int) :
    List Mapping → List ((String × String) × Data) → List BlockMapping →
    List ((String × String) × Data) × List BlockMapping × Except String Unit
  | [], blobs, acc => (blobs, acc, .ok ())
  | d :: rest, blobs, acc =>
    match backupBlocksLoop sd checksum snapshotID volumeID blockSize d
        (Int.toNat (d.Size.tdiv blockSize)) 0 blobs acc with
    | (blobs1, acc1, .error e) => (blobs1, acc1, .error e)
    | (blobs1, acc1, .ok _) =>
      backupMappingsLoop sd checksum snapshotID volumeID blockSize rest blobs1 acc1

/-- `BackupSnapshot` of blockstore.go (lines 221-327).  The block-size
mismatch message abbreviates the Go text. -/
def backupSnapshot {Data : Type} (sd : SDriver Data) (checksum : Data → String)
    (snapshotID volumeID : String) (s : StoreState Data) : BackupResult Data :=
  match alookup s.volumes volumeID with
  | none => ⟨s, [], .error "cannot find volume in blockstore"⟩
  | some volume =>
    if (alookup s.snapshotCfgs (volumeID, snapshotID)).isSome then
      ⟨s, [], .error "snapshot already exists in blockstore!"⟩
    else
      let lastSnapshotID := backupParent volume snapshotID volumeID sd.hasSnapshot
      match backupLastMap s lastSnapshotID volumeID with
      | .error e => ⟨s, [], .error e⟩
      | .ok lastSnapshotMap =>
        match sd.compareSnapshot snapshotID lastSnapshotID volumeID with
        | .error e => ⟨s, [], .error e⟩
        | .ok delta =>
          if delta.BlockSize ≠ s.storeCfg.BlockSize then
            ⟨s, [], .error "does not support different block sizes between blockstore and driver"⟩
          else
            match sd.openSnapshot snapshotID volumeID with
            | .error e => ⟨s, [DEvent.openSnap snapshotID volumeID], .error e⟩
            | .ok _ =>
              match backupMappingsLoop sd checksum snapshotID volumeID delta.BlockSize
                  delta.Mappings s.blobs [] with
              | (blobs1, _, .error e) =>
                ⟨{ s with blobs := blobs1 },
                  [DEvent.openSnap snapshotID volumeID, DEvent.closeSnap snapshotID volumeID],
                  .error e⟩
              | (blobs1, deltaBlocks, .ok _) =>
                let snapshotMap := mergeSnapshotMap snapshotID ⟨"", deltaBlocks⟩ lastSnapshotMap
                ⟨{ s with
                    blobs := blobs1
                    snapshotCfgs := aupdate s.snapshotCfgs (volumeID, snapshotID) snapshotMap
                    volumes := aupdate s.volumes volumeID
                      { volume with LastSnapshotID := snapshotID } },
                  [DEvent.openSnap snapshotID volumeID, DEvent.closeSnap snapshotID volumeID],
                  .ok ()⟩

/-! ### RemoveSnapshot and garbage collection (blockstore.go lines 406-478) -/

/-- The checksums referenced by a SnapshotMap. -/
def mapChecksums (m : SnapshotMap) : List String := m.Blocks.map BlockMapping.BlockChecksum

/-- The per-map GC step (blockstore.go lines 452-460): delete every
checksum of the map from the candidate set. -/
def gcDropMap (cand : List String) (m : SnapshotMap) : List String :=
  m.Blocks.foldl (fun c blk => c.erase blk.BlockChecksum) cand

/-- The GC walk over the surviving SnapshotMaps (blockstore.go lines
447-464), stopping early once the candidate set is exhausted. -/
def gcWalk : List String → List SnapshotMap → List String
  | cand, [] => cand
  | cand, m :: rest =>
    if (gcDropMap cand m).isEmpty then gcDropMap cand m
    else gcWalk (gcDropMap cand m) rest

/-- The SnapshotMaps present for a volume — what iterating the result of
`getSnapshots` (objectstore/config.go lines 210-230) and loading each
map yields. -/
def snapshotsOf (cfgs : List ((String × String) × SnapshotMap)) (volumeID : String) :
    List SnapshotMap :=
  (cfgs.filter (fun p => p.1.1 == volumeID)).map Prod.snd

/-- The block-blob deletion loop (blockstore.go lines 466-472).  The body
of removeAndCleanup is not among the sources; modelled from the spec:
"Delete every block blob whose checksum remains in candidate" (§4.3.6). -/
def removeBlobs {Data : Type} (blobs : List ((String × String) × Data))
    (volumeID : String) (discard : List String) : List ((String × String) × Data) :=
  discard.foldl (fun bs c => aremove bs (volumeID, c)) blobs

/-- `RemoveSnapshot` of blockstore.go (lines 406-478): drop the snapshot
config, clear `LastSnapshotID` if it named this snapshot, then garbage
collect: delete exactly the blobs whose checksums appear in the removed
map and in no surviving map of the volume. -/
def removeSnapshot {Data : Type} (s : StoreState Data) (snapshotID volumeID : String) :
    Except String (StoreState Data) :=
  match alookup s.volumes volumeID with
  | none => .error "cannot find volume in blockstore"
  | some v =>
    match alookup s.snapshotCfgs (volumeID, snapshotID) with
    | none => .error "cannot find snapshot map in blockstore"
    | some snapshotMap =>
      let discard0 := (mapChecksums snapshotMap).dedup
      let cfgs1 := aremove s.snapshotCfgs (volumeID, snapshotID)
      let volumes1 :=
        if snapshotID = v.LastSnapshotID then
          aupdate s.volumes volumeID { v with LastSnapshotID := "" }
        else s.volumes
      let discard := gcWalk discard0 (snapshotsOf cfgs1 volumeID)
      .ok { storeCfg := s.storeCfg
            volumes := volumes1
            snapshotCfgs := cfgs1
            blobs := removeBlobs s.blobs volumeID discard }

/-! ### Register (blockstore.go lines 78-125) -/

/-- The state `Register` acts on: the remote objectstore.cfg (none for a
fresh store), the directories created in the store, and the local config
copies keyed by file name. -/
structure RegState where
  remoteCfg : Option BlockStore
  remoteDirs : List String
  localCfgs : List (String × BlockStore)
deriving DecidableEq, Repr

/-- `getCfgName` of objectstore/config.go (lines 38-40). -/
def getCfgName (id : String) : String := "objectstore_" ++ id ++ ".cfg"

/-- `Register` of blockstore.go (lines 78-125).  `kinds` is the table of
registered driver initializers; `freshUUID` is the UUID minted when the
store holds no config yet.  When a config is already present its kind
must match, its UUID and block size are returned, the remote config is
not rewritten, and only the local copy is saved. -/
def registerStore (kinds : List String) (freshUUID kind : String) (s : RegState) :
    Except String (String × Int × RegState) :=
  if ¬ kind ∈ kinds then .error "driver is not supported"
  else
    match s.remoteCfg with
    | some bs =>
      if bs.Kind ≠ kind then
        .error "specific kind is different from config stored in blockstore"
      else
        .ok (bs.UUID, bs.BlockSize,
          { s with localCfgs := aupdate s.localCfgs (getCfgName bs.UUID) bs })
    | none =>
      let bs : BlockStore := { UUID := freshUUID, Kind := kind, BlockSize := DEFAULT_BLOCK_SIZE }
      .ok (freshUUID, DEFAULT_BLOCK_SIZE,
        { remoteCfg := some bs
          remoteDirs := s.remoteDirs ++ [joinPath BLOCKSTORE_BASE VOLUME_DIRECTORY]
          localCfgs := aupdate s.localCfgs (getCfgName freshUUID) bs })

end Convoy

/-! ## The devmapper storage driver (devmapper/devmapper.go) -/

namespace Convoy.DM

/-- `Snapshot` of devmapper.go. -/
structure Snapshot where
  DevID : Nat
  Activated : Bool
deriving DecidableEq, Repr

/-- `Volume` of devmapper.go: the persisted volume record. -/
structure Volume where
  UUID : String
  DevID : Nat
  Size : Int
  Base : String
  Snapshots : List (String × Snapshot)
deriving DecidableEq, Repr

/-- `Image` of devmapper.go: the persisted image record; `VolumeRef`
lists the UUIDs of volumes based on the image. -/
structure Image where
  UUID : String
  FilePath : String
  Size : Int
  Device : String
  VolumeRef : List String
deriving DecidableEq, Repr

/-- The driver state: the persisted records (volume and image JSON files,
the Device config with `LastDevID`) plus the kernel-side state — the thin
devices present in the pool (by device ID), the activated /dev/mapper
device names, and the files backing image devices. -/
structure DMState where
  volumes : List (String × Volume)
  images : List (String × Image)
  lastDevID : Nat
  thinpoolBlockSize : Int
  thinDevIDs : List Nat
  kernelDevs : List String
  imageDevFiles : List String
deriving DecidableEq, Repr

/-- `SECTOR_SIZE` of devmapper.go. -/
def SECTOR_SIZE : Int := 512

/-- `getSnapshotAndVolume` of devmapper.go (lines 639-654). -/
def getSnapshotAndVolume (s : DMState) (snapshotID volumeID : String) :
    Except String (Snapshot × Volume) :=
  match alookup s.volumes volumeID with
  | none => .error "cannot find volume"
  | some v =>
    match alookup v.Snapshots snapshotID with
    | none => .error "cannot find snapshot of volume"
    | some snap => .ok (snap, v)

/-- `HasSnapshot` of devmapper.go (lines 730-736). -/
def hasSnapshot (s : DMState) (id volumeID : String) : Bool :=
  match getSnapshotAndVolume s id volumeID with
  | .error _ => false
  | .ok _ => true

/-- `DeleteSnapshot` of devmapper.go (lines 563-587): delete the thin
device of the snapshot, then drop the snapshot from the volume record
and persist it. -/
def deleteSnapshot (s : DMState) (id volumeID : String) : DMState × Except String Unit :=
  match getSnapshotAndVolume s id volumeID with
  | .error e => (s, .error e)
  | .ok (snapshot, volume) =>
    if snapshot.DevID ∈ s.thinDevIDs then
      let volume1 := { volume with Snapshots := aremove volume.Snapshots id }
      ({ s with
          thinDevIDs := s.thinDevIDs.erase snapshot.DevID
          volumes := aupdate s.volumes volumeID volume1 }, .ok ())
    else (s, .error "device does not exist")

/-- The snapshot-deletion loop at the head of `DeleteVolume`
(devmapper.go lines 407-416): every snapshot of the volume is deleted,
the operation does not fail merely because snapshots remain. -/
def deleteSnapshotsLoop : DMState → List String → String → DMState × Except String Unit
  | s, [], _ => (s, .ok ())
  | s, sn :: rest, volumeID =>
    match deleteSnapshot s sn volumeID with
    | (s1, .error e) => (s1, .error e)
    | (s1, .ok _) => deleteSnapshotsLoop s1 rest volumeID

/-- `DeleteVolume` of devmapper.go (lines 399-454): delete all snapshots
of the volume, remove the kernel device, delete the thin device, check
the base image back-reference, and remove the volume record.  When the
volume has a base image the code removes the volume UUID only from the
in-memory copy of the image record and never calls saveImage, so the
persisted `images` component is unchanged on every path. -/
def deleteVolume (s : DMState) (id : String) : DMState × Except String Unit :=
  match alookup s.volumes id with
  | none => (s, .error "cannot find volume")
  | some volume =>
    match deleteSnapshotsLoop s (volume.Snapshots.map Prod.fst) volume.UUID with
    | (s1, .error _) =>
      (s1, .error "cannot remove an snapshot of volume, as part of deletion of volume")
    | (s1, .ok _) =>
      if id ∈ s1.kernelDevs then
        let s2 := { s1 with kernelDevs := s1.kernelDevs.erase id }
        if volume.DevID ∈ s2.thinDevIDs then
          let s3 := { s2 with thinDevIDs := s2.thinDevIDs.erase volume.DevID }
          if volume.Base = "" then
            ({ s3 with volumes := aremove s3.volumes id }, .ok ())
          else
            match alookup s3.images volume.Base with
            | none => (s3, .error "Cannot find volume base image")
            | some image =>
              if volume.UUID ∈ image.VolumeRef then
                ({ s3 with volumes := aremove s3.volumes id }, .ok ())
              else (s3, .error "Volume base image does not refer volume")
        else (s2, .error "device does not exist")
      else (s1, .error "device does not exist")

/-- The base-image existence and size checks of `CreateVolume`
(devmapper.go lines 305-324). -/
def imageCheck (s : DMState) (baseID : String) (size : Int) : Except String (Option Image) :=
  if baseID = "" then .ok none
  else
    match alookup s.images baseID with
    | none => .error "Cannot find activated base image"
    | some image =>
      if ¬ image.Device ∈ s.imageDevFiles then .error "Base image device does not exist"
      else if size ≠ image.Size then .error "Volume has different size than base image"
      else .ok (some image)

/-- `CreateVolume` of devmapper.go (lines 293-397).  `activateOk` is the
kernel response to `ActivateDevice`.  `devID := LastDevID` is read at
line 326; on activation failure the created thin device is deleted again
and the error returned — `LastDevID` is incremented only on the success
path (line 391), so a failed activation leaves the counter unchanged. -/
def createVolume (activateOk : Bool) (s : DMState) (id baseID : String) (size : Int) :
    DMState × Except String Unit :=
  if size % (s.thinpoolBlockSize * SECTOR_SIZE) ≠ 0 then
    (s, .error "Size must be multiple of block size")
  else if (alookup s.volumes id).isSome then
    (s, .error "Already has volume with specific uuid")
  else
    match imageCheck s baseID size with
    | .error e => (s, .error e)
    | .ok imageOpt =>
      let devID := s.lastDevID
      if devID ∈ s.thinDevIDs then (s, .error "device already exists")
      else
        let s1 := { s with thinDevIDs := devID :: s.thinDevIDs }
        if ¬ activateOk then
          ({ s1 with thinDevIDs := s1.thinDevIDs.erase devID }, .error "failed to activate device")
        else
          let s2 := { s1 with kernelDevs := s1.kernelDevs ++ [id] }
          let volume : Volume := {
            UUID := id
            DevID := devID
            Size := size
            Base := (match imageOpt with | some image => image.UUID | none => "")
            Snapshots := [] }
          let s3 := match imageOpt with
            | some image =>
              let image1 := { image with VolumeRef := id :: image.VolumeRef }
              { s2 with images := aupdate s2.images image.UUID image1 }
            | none => s2
          let s4 := { s3 with volumes := aupdate s3.volumes id volume }
          ({ s4 with lastDevID := s4.lastDevID + 1 }, .ok ())

end Convoy.DM

namespace Convoy

/-! ### Concrete states for witnesses -/

/-- Witness store for the RemoveSnapshot GC: volume `v` whose snapshot
`s1` maps offsets to blocks a, b and whose snapshot `s2` maps them to
c, b; blobs a, b and c are present (scenario S6 of the spec). -/
def gcWitnessStore : StoreState Unit :=
  StoreState.mk (BlockStore.mk "u" "vfs" 2097152)
    [("v", Volume.mk 4194304 "" "s2")]
    [(("v", "s1"), SnapshotMap.mk "s1" [BlockMapping.mk 0 "a", BlockMapping.mk 2097152 "b"]),
     (("v", "s2"), SnapshotMap.mk "s2" [BlockMapping.mk 0 "c", BlockMapping.mk 2097152 "b"])]
    [(("v", "a"), ()), (("v", "b"), ()), (("v", "c"), ())]

/-- Expected result of removing `s1` from `gcWitnessStore`: blob a is
gone (only s1 referenced it), blobs b and c remain. -/
def gcWitnessResult : StoreState Unit :=
  StoreState.mk (BlockStore.mk "u" "vfs" 2097152)
    [("v", Volume.mk 4194304 "" "s2")]
    [(("v", "s2"), SnapshotMap.mk "s2" [BlockMapping.mk 0 "c", BlockMapping.mk 2097152 "b"])]
    [(("v", "b"), ()), (("v", "c"), ())]

/-- Driver state for the C3 counterexample: volume `v` (device 1) with
one snapshot `sn` (device 2); both devices exist, the volume device is
activated. -/
def c3State : DM.DMState :=
  DM.DMState.mk [("v", DM.Volume.mk "v" 1 4194304 "" [("sn", DM.Snapshot.mk 2 false)])]
    [] 3 4096 [1, 2] ["v"] []

/-- Result of `DeleteVolume` on `c3State`: the snapshot and the volume
are gone, nothing failed. -/
def c3After : DM.DMState :=
  DM.DMState.mk [] [] 3 4096 [] [] []

/-- Driver state for the C4 counterexample: a fresh pool with
`LastDevID = 1` and no devices. -/
def c4State : DM.DMState :=
  DM.DMState.mk [] [] 1 4096 [] [] []

/-- Result of a successful `CreateVolume` on `c4State`: the volume uses
device ID 1 — the same ID a previously failed activation consumed. -/
def c4SuccState : DM.DMState :=
  DM.DMState.mk [("v", DM.Volume.mk "v" 1 2097152 "" [])] [] 2 4096 [1] ["v"] []

/-- Driver state for the C9 evaluation: volume `v` based on image `img`
whose persisted record lists `v` in `VolumeRef`. -/
def c9State : DM.DMState :=
  DM.DMState.mk [("v", DM.Volume.mk "v" 1 4194304 "img" [])]
    [("img", DM.Image.mk "img" "/images/img.img" 4194304 "/dev/loop0" ["v"])]
    2 4096 [1] ["v"] ["/dev/loop0"]

/-- Result of `DeleteVolume` on `c9State`: the volume record is gone but
the persisted image record still lists `v` — the in-memory
`delete(image.VolumeRef, ...)` is never saved. -/
def c9After : DM.DMState :=
  DM.DMState.mk []
    [("img", DM.Image.mk "img" "/images/img.img" 4194304 "/dev/loop0" ["v"])]
    2 4096 [] [] ["/dev/loop0"]

/-! ### Lemmas about the merge loop -/

theorem blocksSorted_cons {b : BlockMapping} {l : List BlockMapping} :
    BlocksSorted (b :: l) ↔ (∀ x ∈ l, b.Offset < x.Offset) ∧ BlocksSorted l :=
  List.pairwise_cons

theorem mergeBlocks_mem (ds ls : List BlockMapping) (b : BlockMapping)
    (hb : b ∈ mergeBlocks ds ls) : b ∈ ds ∨ b ∈ ls := by
  induction ds, ls using mergeBlocks.induct with
  | case1 ls =>
    rw [mergeBlocks] at hb
    exact Or.inr hb
  | case2 dB ds =>
    rw [mergeBlocks] at hb
    exact Or.inl hb
  | case3 dB ds lB ls heq ih =>
    rw [mergeBlocks, if_pos heq] at hb
    rcases List.mem_cons.mp hb with h | h
    · exact Or.inl (by simp [h])
    · rcases ih h with h1 | h1
      · exact Or.inl (List.mem_cons_of_mem _ h1)
      · exact Or.inr (List.mem_cons_of_mem _ h1)
  | case4 dB ds lB ls heq hlt ih =>
    rw [mergeBlocks, if_neg heq, if_pos hlt] at hb
    rcases List.mem_cons.mp hb with h | h
    · exact Or.inl (by simp [h])
    · rcases ih h with h1 | h1
      · exact Or.inl (List.mem_cons_of_mem _ h1)
      · exact Or.inr h1
  | case5 dB ds lB ls heq hlt ih =>
    rw [mergeBlocks, if_neg heq, if_neg hlt] at hb
    rcases List.mem_cons.mp hb with h | h
    · exact Or.inr (by simp [h])
    · rcases ih h with h1 | h1
      · exact Or.inl h1
      · exact Or.inr (List.mem_cons_of_mem _ h1)

theorem mergeBlocks_length (ds ls : List BlockMapping) :
    (mergeBlocks ds ls).length ≤ ds.length + ls.length := by
  induction ds, ls using mergeBlocks.induct with
  | case1 ls => rw [mergeBlocks]; simp
  | case2 dB ds => rw [mergeBlocks]; simp
  | case3 dB ds lB ls heq ih =>
    rw [mergeBlocks, if_pos heq]
    simp only [List.length_cons] at *
    omega
  | case4 dB ds lB ls heq hlt ih =>
    rw [mergeBlocks, if_neg heq, if_pos hlt]
    simp only [List.length_cons] at *
    omega
  | case5 dB ds lB ls heq hlt ih =>
    rw [mergeBlocks, if_neg heq, if_neg hlt]
    simp only [List.length_cons] at *
    omega

theorem mergeBlocks_offsets (ds ls : List BlockMapping) (o : Int) :
    o ∈ offsets (mergeBlocks ds ls) ↔ o ∈ offsets ds ∨ o ∈ offsets ls := by
  induction ds, ls using mergeBlocks.induct with
  | case1 ls => rw [mergeBlocks]; simp [offsets]
  | case2 dB ds => rw [mergeBlocks]; simp [offsets]
  | case3 dB ds lB ls heq ih =>
    rw [mergeBlocks, if_pos heq]
    simp only [offsets, List.map_cons, List.mem_cons] at *
    constructor
    · rintro (h | h)
      · exact Or.inl (Or.inl h)
      · rcases ih.mp h with h1 | h1
        · exact Or.inl (Or.inr h1)
        · exact Or.inr (Or.inr h1)
    · rintro ((h | h) | (h | h))
      · exact Or.inl h
      · exact Or.inr (ih.mpr (Or.inl h))
      · exact Or.inl (by omega)
      · exact Or.inr (ih.mpr (Or.inr h))
  | case4 dB ds lB ls heq hlt ih =>
    rw [mergeBlocks, if_neg heq, if_pos hlt]
    simp only [offsets, List.map_cons, List.mem_cons] at *
    constructor
    · rintro (h | h)
      · exact Or.inl (Or.inl h)
      · rcases ih.mp h with h1 | h1
        · exact Or.inl (Or.inr h1)
        · exact Or.inr h1
    · rintro ((h | h) | (h | h))
      · exact Or.inl h
      · exact Or.inr (ih.mpr (Or.inl h))
      · exact Or.inr (ih.mpr (Or.inr (Or.inl h)))
      · exact Or.inr (ih.mpr (Or.inr (Or.inr h)))
  | case5 dB ds lB ls heq hlt ih =>
    rw [mergeBlocks, if_neg heq, if_neg hlt]
    simp only [offsets, List.map_cons, List.mem_cons] at *
    constructor
    · rintro (h | h)
      · exact Or.inr (Or.inl h)
      · rcases ih.mp h with h1 | h1
        · exact Or.inl h1
        · exact Or.inr (Or.inr h1)
    · rintro ((h | h) | (h | h))
      · exact Or.inr (ih.mpr (Or.inl (Or.inl h)))
      · exact Or.inr (ih.mpr (Or.inl (Or.inr h)))
      · exact Or.inl h
      · exact Or.inr (ih.mpr (Or.inr h))

theorem mergeBlocks_sorted (ds ls : List BlockMapping)
    (hd : BlocksSorted ds) (hl : BlocksSorted ls) :
    BlocksSorted (mergeBlocks ds ls) := by
  induction ds, ls using mergeBlocks.induct with
  | case1 ls => rw [mergeBlocks]; exact hl
  | case2 dB ds => rw [mergeBlocks]; exact hd
  | case3 dB ds lB ls heq ih =>
    rw [mergeBlocks, if_pos heq]
    obtain ⟨hd1, hd2⟩ := blocksSorted_cons.mp hd
    obtain ⟨hl1, hl2⟩ := blocksSorted_cons.mp hl
    refine blocksSorted_cons.mpr ⟨fun b hb => ?_, ih hd2 hl2⟩
    rcases mergeBlocks_mem _ _ _ hb with h | h
    · exact hd1 b h
    · exact heq ▸ hl1 b h
  | case4 dB ds lB ls heq hlt ih =>
    rw [mergeBlocks, if_neg heq, if_pos hlt]
    obtain ⟨hd1, hd2⟩ := blocksSorted_cons.mp hd
    obtain ⟨hl1, hl2⟩ := blocksSorted_cons.mp hl
    refine blocksSorted_cons.mpr ⟨fun b hb => ?_, ih hd2 hl⟩
    rcases mergeBlocks_mem _ _ _ hb with h | h
    · exact hd1 b h
    · rcases List.mem_cons.mp h with h1 | h1
      · exact h1 ▸ hlt
      · exact lt_trans hlt (hl1 b h1)
  | case5 dB ds lB ls heq hlt ih =>
    rw [mergeBlocks, if_neg heq, if_neg hlt]
    have hgt : lB.Offset < dB.Offset := by
      rcases lt_trichotomy dB.Offset lB.Offset with h | h | h
      · exact absurd h hlt
      · exact absurd h heq
      · exact h
    obtain ⟨hd1, hd2⟩ := blocksSorted_cons.mp hd
    obtain ⟨hl1, hl2⟩ := blocksSorted_cons.mp hl
    refine blocksSorted_cons.mpr ⟨fun b hb => ?_, ih hd hl2⟩
    rcases mergeBlocks_mem _ _ _ hb with h | h
    · rcases List.mem_cons.mp h with h1 | h1
      · exact h1 ▸ hgt
      · exact lt_trans hgt (hd1 b h1)
    · exact hl1 b h

theorem mergeBlocks_delta_wins (ds ls : List BlockMapping)
    (hd : BlocksSorted ds) (hl : BlocksSorted ls) (b : BlockMapping)
    (hb : b ∈ mergeBlocks ds ls) :
    b ∈ ds ∨ (b ∈ ls ∧ b.Offset ∉ offsets ds) := by
  induction ds, ls using mergeBlocks.induct with
  | case1 ls =>
    rw [mergeBlocks] at hb
    exact Or.inr ⟨hb, by simp [offsets]⟩
  | case2 dB ds =>
    rw [mergeBlocks] at hb
    exact Or.inl hb
  | case3 dB ds lB ls heq ih =>
    rw [mergeBlocks, if_pos heq] at hb
    obtain ⟨hd1, hd2⟩ := blocksSorted_cons.mp hd
    obtain ⟨hl1, hl2⟩ := blocksSorted_cons.mp hl
    rcases List.mem_cons.mp hb with h | h
    · exact Or.inl (by simp [h])
    · rcases ih hd2 hl2 h with h1 | h1
      · exact Or.inl (List.mem_cons_of_mem _ h1)
      · refine Or.inr ⟨List.mem_cons_of_mem _ h1.1, ?_⟩
        simp only [offsets, List.map_cons, List.mem_cons]
        rintro (hc | hc)
        · have hlb : lB.Offset < b.Offset := hl1 b h1.1
          omega
        · exact h1.2 (by simpa [offsets] using hc)
  | case4 dB ds lB ls heq hlt ih =>
    rw [mergeBlocks, if_neg heq, if_pos hlt] at hb
    obtain ⟨hd1, hd2⟩ := blocksSorted_cons.mp hd
    rcases List.mem_cons.mp hb with h | h
    · exact Or.inl (by simp [h])
    · rcases ih hd2 hl h with h1 | h1
      · exact Or.inl (List.mem_cons_of_mem _ h1)
      · refine Or.inr ⟨h1.1, ?_⟩
        simp only [offsets, List.map_cons, List.mem_cons]
        obtain ⟨hl1, hl2⟩ := blocksSorted_cons.mp hl
        rintro (hc | hc)
        · rcases List.mem_cons.mp h1.1 with h2 | h2
          · subst h2; omega
          · have hlb : lB.Offset < b.Offset := hl1 b h2
            omega
        · exact h1.2 (by simpa [offsets] using hc)
  | case5 dB ds lB ls heq hlt ih =>
    rw [mergeBlocks, if_neg heq, if_neg hlt] at hb
    have hgt : lB.Offset < dB.Offset := by
      rcases lt_trichotomy dB.Offset lB.Offset with h | h | h
      · exact absurd h hlt
      · exact absurd h heq
      · exact h
    obtain ⟨hd1, hd2⟩ := blocksSorted_cons.mp hd
    obtain ⟨hl1, hl2⟩ := blocksSorted_cons.mp hl
    rcases List.mem_cons.mp hb with h | h
    · refine Or.inr ⟨by simp [h], ?_⟩
      subst h
      simp only [offsets, List.map_cons, List.mem_cons]
      rintro (hc | hc)
      · omega
      · rcases List.mem_map.mp hc with ⟨x, hx, hox⟩
        have hdx : dB.Offset < x.Offset := hd1 x hx
        omega
    · rcases ih hd hl2 h with h1 | h1
      · exact Or.inl h1
      · exact Or.inr ⟨List.mem_cons_of_mem _ h1.1, h1.2⟩

theorem blocksSorted_offsets_nodup (l : List BlockMapping) (h : BlocksSorted l) :
    (offsets l).Nodup := by
  unfold offsets
  exact List.pairwise_map.mpr (h.imp fun hab => ne_of_lt hab)

/-- C1: for sorted inputs, `mergeSnapshotMap(delta, parent)` returns a block
list that is strictly increasing in Offset, has no duplicate offsets, has
length at most the sum of the input lengths, carries exactly the offsets of
delta and parent, and every entry comes from delta, or from parent at an
offset delta does not cover (so on common offsets the delta entry wins). -/
theorem mergeSnapshotMap_spec (sid : String) (delta parent : SnapshotMap)
    (hd : BlocksSorted delta.Blocks) (hp : BlocksSorted parent.Blocks) :
    BlocksSorted (mergeSnapshotMap sid delta (some parent)).Blocks ∧
    (offsets (mergeSnapshotMap sid delta (some parent)).Blocks).Nodup ∧
    (mergeSnapshotMap sid delta (some parent)).Blocks.length ≤
      delta.Blocks.length + parent.Blocks.length ∧
    (∀ o : Int, o ∈ offsets (mergeSnapshotMap sid delta (some parent)).Blocks ↔
      o ∈ offsets delta.Blocks ∨ o ∈ offsets parent.Blocks) ∧
    (∀ b ∈ (mergeSnapshotMap sid delta (some parent)).Blocks,
      b ∈ delta.Blocks ∨ (b ∈ parent.Blocks ∧ b.Offset ∉ offsets delta.Blocks)) := by
  have hm : (mergeSnapshotMap sid delta (some parent)).Blocks
      = mergeBlocks delta.Blocks parent.Blocks := rfl
  rw [hm]
  have hs := mergeBlocks_sorted delta.Blocks parent.Blocks hd hp
  exact ⟨hs, blocksSorted_offsets_nodup _ hs, mergeBlocks_length _ _,
    fun o => mergeBlocks_offsets _ _ o,
    fun b hb => mergeBlocks_delta_wins _ _ hd hp b hb⟩

/-- Concrete instance of `mergeSnapshotMap_spec`: the delta covers offsets
0 and 2, the parent covers 2 and 4. -/
theorem mergeSnapshotMap_spec_witness :
    BlocksSorted (SnapshotMap.mk "" [⟨0, "c0"⟩, ⟨2, "c2"⟩]).Blocks ∧
    BlocksSorted (SnapshotMap.mk "p" [⟨2, "b2"⟩, ⟨4, "b4"⟩]).Blocks ∧
    (BlocksSorted (mergeSnapshotMap "s2" (SnapshotMap.mk "" [⟨0, "c0"⟩, ⟨2, "c2"⟩])
        (some (SnapshotMap.mk "p" [⟨2, "b2"⟩, ⟨4, "b4"⟩]))).Blocks ∧
      (offsets (mergeSnapshotMap "s2" (SnapshotMap.mk "" [⟨0, "c0"⟩, ⟨2, "c2"⟩])
        (some (SnapshotMap.mk "p" [⟨2, "b2"⟩, ⟨4, "b4"⟩]))).Blocks).Nodup ∧
      (mergeSnapshotMap "s2" (SnapshotMap.mk "" [⟨0, "c0"⟩, ⟨2, "c2"⟩])
        (some (SnapshotMap.mk "p" [⟨2, "b2"⟩, ⟨4, "b4"⟩]))).Blocks.length ≤
        (SnapshotMap.mk "" [⟨0, "c0"⟩, ⟨2, "c2"⟩]).Blocks.length +
        (SnapshotMap.mk "p" [⟨2, "b2"⟩, ⟨4, "b4"⟩]).Blocks.length ∧
      (∀ o : Int, o ∈ offsets (mergeSnapshotMap "s2" (SnapshotMap.mk "" [⟨0, "c0"⟩, ⟨2, "c2"⟩])
          (some (SnapshotMap.mk "p" [⟨2, "b2"⟩, ⟨4, "b4"⟩]))).Blocks ↔
        o ∈ offsets (SnapshotMap.mk "" [⟨0, "c0"⟩, ⟨2, "c2"⟩]).Blocks ∨
        o ∈ offsets (SnapshotMap.mk "p" [⟨2, "b2"⟩, ⟨4, "b4"⟩]).Blocks) ∧
      (∀ b ∈ (mergeSnapshotMap "s2" (SnapshotMap.mk "" [⟨0, "c0"⟩, ⟨2, "c2"⟩])
          (some (SnapshotMap.mk "p" [⟨2, "b2"⟩, ⟨4, "b4"⟩]))).Blocks,
        b ∈ (SnapshotMap.mk "" [⟨0, "c0"⟩, ⟨2, "c2"⟩]).Blocks ∨
        (b ∈ (SnapshotMap.mk "p" [⟨2, "b2"⟩, ⟨4, "b4"⟩]).Blocks ∧
          b.Offset ∉ offsets (SnapshotMap.mk "" [⟨0, "c0"⟩, ⟨2, "c2"⟩]).Blocks))) :=
  ⟨by decide, by decide,
    mergeSnapshotMap_spec "s2" (SnapshotMap.mk "" [⟨0, "c0"⟩, ⟨2, "c2"⟩])
      (SnapshotMap.mk "p" [⟨2, "b2"⟩, ⟨4, "b4"⟩]) (by decide) (by decide)⟩

end Convoy

namespace Convoy

/-! ### Association-list lemmas -/

theorem alookup_aupdate_self {α β : Type} [DecidableEq α] (l : List (α × β)) (k : α) (v : β) :
    alookup (aupdate l k v) k = some v := by
  induction l with
  | nil => simp [aupdate, alookup]
  | cons p rest ih =>
    obtain ⟨a, b⟩ := p
    by_cases h : a = k
    · simp [aupdate, alookup, h]
    · simp [aupdate, alookup, h, ih]

theorem alookup_aupdate_ne {α β : Type} [DecidableEq α] (l : List (α × β)) (k k1 : α) (v : β)
    (h : k1 ≠ k) : alookup (aupdate l k v) k1 = alookup l k1 := by
  induction l with
  | nil => simp [aupdate, alookup, Ne.symm h]
  | cons p rest ih =>
    obtain ⟨a, b⟩ := p
    by_cases ha : a = k
    · subst ha
      simp [aupdate, alookup, Ne.symm h]
    · simp only [aupdate, if_neg ha, alookup]
      by_cases hk1 : a = k1 <;> simp [hk1, ih]

theorem alookup_aremove_self {α β : Type} [DecidableEq α] (l : List (α × β)) (k : α) :
    alookup (aremove l k) k = none := by
  induction l with
  | nil => simp [aremove, alookup]
  | cons p rest ih =>
    obtain ⟨a, b⟩ := p
    by_cases h : a = k
    · simp [aremove, h, ih]
    · simp [aremove, alookup, h, ih]

theorem alookup_aremove_ne {α β : Type} [DecidableEq α] (l : List (α × β)) (k k1 : α)
    (h : k1 ≠ k) : alookup (aremove l k) k1 = alookup l k1 := by
  induction l with
  | nil => simp [aremove]
  | cons p rest ih =>
    obtain ⟨a, b⟩ := p
    by_cases ha : a = k
    · subst ha
      simp [aremove, alookup, Ne.symm h, ih]
    · simp only [aremove, if_neg ha, alookup]
      by_cases hk1 : a = k1 <;> simp [hk1, ih]

theorem alookup_mem {α β : Type} [DecidableEq α] (l : List (α × β)) (k : α) (b : β)
    (h : alookup l k = some b) : (k, b) ∈ l := by
  induction l with
  | nil => simp [alookup] at h
  | cons p rest ih =>
    obtain ⟨a, b1⟩ := p
    by_cases ha : a = k
    · subst ha
      rw [alookup, if_pos rfl] at h
      have hb : b1 = b := by simpa using h
      subst hb
      exact List.mem_cons_self _ _
    · simp only [alookup, if_neg ha] at h
      exact List.mem_cons_of_mem _ (ih h)

end Convoy

namespace Convoy

/-! ### C10: totality of the on-store path computation -/

theorem option_isSome_map {α β : Type} (f : α → β) (o : Option α) :
    (Option.map f o).isSome = o.isSome := by
  cases o <;> rfl

theorem option_map_eq_none {α β : Type} (f : α → β) (o : Option α) :
    Option.map f o = none ↔ o = none := by
  cases o <;> simp

theorem goSlice_isSome (s : String) (i j : Nat) :
    (goSlice s i j).isSome ↔ (i ≤ j ∧ j ≤ s.length) := by
  unfold goSlice
  by_cases h : i ≤ j ∧ j ≤ s.length <;> simp [h]

theorem getVolumePath_isSome (v : String) : (getVolumePath v).isSome ↔ 4 ≤ v.length := by
  unfold getVolumePath
  by_cases h : 4 ≤ v.length
  · have h1 : (goSlice v 0 VOLUME_SEPARATE_LAYER1).isSome := by
      rw [goSlice_isSome]
      unfold VOLUME_SEPARATE_LAYER1
      omega
    have h2 : (goSlice v VOLUME_SEPARATE_LAYER1 VOLUME_SEPARATE_LAYER2).isSome := by
      rw [goSlice_isSome]
      unfold VOLUME_SEPARATE_LAYER1 VOLUME_SEPARATE_LAYER2
      omega
    obtain ⟨l1, hl1⟩ := Option.isSome_iff_exists.mp h1
    obtain ⟨l2, hl2⟩ := Option.isSome_iff_exists.mp h2
    rw [hl1, hl2]
    simp [h]
  · have h2 : goSlice v VOLUME_SEPARATE_LAYER1 VOLUME_SEPARATE_LAYER2 = none := by
      rw [← Option.not_isSome_iff_eq_none, goSlice_isSome]
      unfold VOLUME_SEPARATE_LAYER1 VOLUME_SEPARATE_LAYER2
      omega
    rw [h2]
    cases goSlice v 0 VOLUME_SEPARATE_LAYER1 <;> simp [h]

theorem getBlockFilePath_isSome (v c : String) :
    (getBlockFilePath v c).isSome ↔ (4 ≤ v.length ∧ 4 ≤ c.length) := by
  unfold getBlockFilePath
  by_cases hv : 4 ≤ v.length
  · have hb : (getBlocksPath v).isSome := by
      unfold getBlocksPath
      rw [option_isSome_map, getVolumePath_isSome]
      exact hv
    obtain ⟨bp, hbp⟩ := Option.isSome_iff_exists.mp hb
    rw [hbp]
    by_cases hc : 4 ≤ c.length
    · have h1 : (goSlice c 0 BLOCK_SEPARATE_LAYER1).isSome := by
        rw [goSlice_isSome]; unfold BLOCK_SEPARATE_LAYER1; omega
      have h2 : (goSlice c BLOCK_SEPARATE_LAYER1 BLOCK_SEPARATE_LAYER2).isSome := by
        rw [goSlice_isSome]; unfold BLOCK_SEPARATE_LAYER1 BLOCK_SEPARATE_LAYER2; omega
      obtain ⟨l1, hl1⟩ := Option.isSome_iff_exists.mp h1
      obtain ⟨l2, hl2⟩ := Option.isSome_iff_exists.mp h2
      rw [hl1, hl2]
      simp [hv, hc]
    · have h2 : goSlice c BLOCK_SEPARATE_LAYER1 BLOCK_SEPARATE_LAYER2 = none := by
        rw [← Option.not_isSome_iff_eq_none, goSlice_isSome]
        unfold BLOCK_SEPARATE_LAYER1 BLOCK_SEPARATE_LAYER2
        omega
      rw [h2]
      cases goSlice c 0 BLOCK_SEPARATE_LAYER1 <;> simp [hv, hc]
  · have hb : getBlocksPath v = none := by
      unfold getBlocksPath
      rw [option_map_eq_none, ← Option.not_isSome_iff_eq_none, getVolumePath_isSome]
      exact hv
    rw [hb]
    simp [hv]

/-- C10: every on-store path computation of the engine operations fans
out on the first four characters of the volume UUID (and of the block
checksum): `getVolumePath` — and with it `getVolumeFilePath`,
`getSnapshotsPath` and `getBlocksPath`, through which AddVolume,
RemoveVolume, BackupSnapshot, RestoreSnapshot and RemoveSnapshot compute
every path they touch — is defined (no slice panic) exactly when the
volume UUID has at least 4 characters, and `getBlockFilePath` requires
the same of the checksum; a 2-character UUID yields no path (a panic in
Go, not an error), and for a well-formed UUID the two-level fan-out takes
characters 0-1 and 2-3. -/
theorem path_fanout_spec :
    (∀ v : String, (getVolumePath v).isSome ↔ 4 ≤ v.length) ∧
    (∀ v : String, (getVolumeFilePath v).isSome ↔ 4 ≤ v.length) ∧
    (∀ v : String, (getSnapshotsPath v).isSome ↔ 4 ≤ v.length) ∧
    (∀ v : String, (getBlocksPath v).isSome ↔ 4 ≤ v.length) ∧
    (∀ v c : String, (getBlockFilePath v c).isSome ↔ (4 ≤ v.length ∧ 4 ≤ c.length)) ∧
    getVolumePath "0011223344" =
      some "rancher-objectstore/volumes/00/11/0011223344" ∧
    getVolumePath "ab" = none := by
  refine ⟨getVolumePath_isSome, ?_, ?_, ?_, getBlockFilePath_isSome, by rfl, by rfl⟩
  · intro v
    unfold getVolumeFilePath
    rw [option_isSome_map]
    exact getVolumePath_isSome v
  · intro v
    unfold getSnapshotsPath
    rw [option_isSome_map]
    exact getVolumePath_isSome v
  · intro v
    unfold getBlocksPath
    rw [option_isSome_map]
    exact getVolumePath_isSome v

end Convoy

namespace Convoy

/-! ### C5: Register idempotence -/

/-- C5: registering twice with the same kind returns the same UUID and
block size both times and the second call leaves the remote
objectstore.cfg record unchanged (hence byte-for-byte unchanged, the
file being the serialization of the record); when a config already
exists in the store its UUID is reused and the local copy is overwritten
with the stored record; a kind different from the stored kind is
rejected. -/
theorem register_spec :
    (∀ (kinds : List String) (u1 u2 kind : String) (s : RegState) (id : String)
        (bsz : Int) (s1 : RegState),
      registerStore kinds u1 kind s = .ok (id, bsz, s1) →
      ∃ s2, registerStore kinds u2 kind s1 = .ok (id, bsz, s2) ∧
        s2.remoteCfg = s1.remoteCfg) ∧
    (∀ (kinds : List String) (u kind : String) (s : RegState) (bs : BlockStore),
      kind ∈ kinds → s.remoteCfg = some bs → bs.Kind = kind →
      ∃ s1, registerStore kinds u kind s = .ok (bs.UUID, bs.BlockSize, s1) ∧
        s1.remoteCfg = s.remoteCfg ∧
        alookup s1.localCfgs (getCfgName bs.UUID) = some bs) ∧
    (∀ (kinds : List String) (u kind : String) (s : RegState) (bs : BlockStore),
      s.remoteCfg = some bs → bs.Kind ≠ kind → kind ∈ kinds →
      registerStore kinds u kind s =
        .error "specific kind is different from config stored in blockstore") := by
  refine ⟨?_, ?_, ?_⟩
  · intro kinds u1 u2 kind s id bsz s1 h
    by_cases hk : kind ∈ kinds
    · cases hrc : s.remoteCfg with
      | some bs =>
        by_cases hbk : bs.Kind = kind
        · simp only [registerStore, hk, hrc, hbk, not_true, ite_false, ne_eq, ite_true,
            ite_not, if_neg, Except.ok.injEq, Prod.mk.injEq] at h
          obtain ⟨hid, hbsz, hs1⟩ := h
          subst hid hbsz
          have hrc1 : s1.remoteCfg = some bs := by rw [← hs1]
          refine ⟨{ s1 with localCfgs := aupdate s1.localCfgs (getCfgName bs.UUID) bs },
            ?_, by rfl⟩
          simp [registerStore, hk, hrc1, hbk]
        · have hfls : registerStore kinds u1 kind s =
              .error "specific kind is different from config stored in blockstore" := by
            simp [registerStore, hk, hrc, hbk]
          rw [hfls] at h
          cases h
      | none =>
        simp only [registerStore, hk, hrc, not_true, ite_false, Except.ok.injEq,
          Prod.mk.injEq, if_neg, ite_true] at h
        obtain ⟨hid, hbsz, hs1⟩ := h
        subst hid hbsz
        have hrc1 : s1.remoteCfg =
            some (BlockStore.mk u1 kind DEFAULT_BLOCK_SIZE) := by rw [← hs1]
        refine ⟨{ s1 with localCfgs := aupdate s1.localCfgs (getCfgName u1) (BlockStore.mk u1 kind DEFAULT_BLOCK_SIZE) }, ?_, by rfl⟩
        simp [registerStore, hk, hrc1]
    · simp [registerStore, hk] at h
  · intro kinds u kind s bs hk hrc hbk
    refine ⟨{ s with localCfgs := aupdate s.localCfgs (getCfgName bs.UUID) bs },
      ?_, by rfl, ?_⟩
    · simp [registerStore, hk, hrc, hbk]
    · exact alookup_aupdate_self _ _ _
  · intro kinds u kind s bs hrc hbk hk
    simp [registerStore, hk, hrc, hbk]

/-- Concrete instance of `register_spec`: a first registration against an
empty store mints UUID u1; re-registering returns the same UUID and block
size and leaves the remote config unchanged. -/
theorem register_spec_witness :
    registerStore ["vfs"] "u1" "vfs" (RegState.mk none [] []) =
      .ok ("u1", DEFAULT_BLOCK_SIZE,
        RegState.mk (some (BlockStore.mk "u1" "vfs" 2097152))
          ["rancher-objectstore/volumes"]
          [("objectstore_u1.cfg", BlockStore.mk "u1" "vfs" 2097152)]) ∧
    (∃ s2, registerStore ["vfs"] "u2" "vfs"
        (RegState.mk (some (BlockStore.mk "u1" "vfs" 2097152))
          ["rancher-objectstore/volumes"]
          [("objectstore_u1.cfg", BlockStore.mk "u1" "vfs" 2097152)]) =
        .ok ("u1", DEFAULT_BLOCK_SIZE, s2) ∧
      s2.remoteCfg = (RegState.mk (some (BlockStore.mk "u1" "vfs" 2097152))
          ["rancher-objectstore/volumes"]
          [("objectstore_u1.cfg", BlockStore.mk "u1" "vfs" 2097152)]).remoteCfg) :=
  ⟨by rfl,
    register_spec.1 ["vfs"] "u1" "u2" "vfs" (RegState.mk none [] []) "u1"
      DEFAULT_BLOCK_SIZE _ (by rfl)⟩

/-! ### C6: parent selection in BackupSnapshot -/

/-- C6: the parent used for the incremental delta is
`Volume.LastSnapshotID` exactly when that field is set, differs from the
snapshot being backed up, and the local driver still has it
(`HasSnapshot`); in every other case the parent is the empty string and a
full backup is produced.  `DM.hasSnapshot` holds exactly when the volume
record exists and lists the snapshot. -/
theorem backupParent_spec :
    (∀ (volume : Volume) (snapshotID volumeID : String)
        (hasSnap : String → String → Bool),
      (volume.LastSnapshotID ≠ "" → volume.LastSnapshotID ≠ snapshotID →
        hasSnap volume.LastSnapshotID volumeID = true →
        backupParent volume snapshotID volumeID hasSnap = volume.LastSnapshotID) ∧
      (volume.LastSnapshotID = "" ∨ volume.LastSnapshotID = snapshotID ∨
        hasSnap volume.LastSnapshotID volumeID = false →
        backupParent volume snapshotID volumeID hasSnap = "")) ∧
    (∀ (d : DM.DMState) (id volumeID : String),
      DM.hasSnapshot d id volumeID = true ↔
        ∃ v, alookup d.volumes volumeID = some v ∧ (alookup v.Snapshots id).isSome) := by
  constructor
  · intro volume snapshotID volumeID hasSnap
    constructor
    · intro h1 h2 h3
      unfold backupParent
      rw [if_neg h1, if_neg h2, if_pos h3]
    · rintro (h | h | h)
      · unfold backupParent
        rw [if_pos h]
      · unfold backupParent
        by_cases h1 : volume.LastSnapshotID = ""
        · rw [if_pos h1]
        · rw [if_neg h1, if_pos h]
      · unfold backupParent
        by_cases h1 : volume.LastSnapshotID = ""
        · rw [if_pos h1]
        · rw [if_neg h1]
          by_cases h2 : volume.LastSnapshotID = snapshotID
          · rw [if_pos h2]
          · rw [if_neg h2, h, if_neg (by simp)]
  · intro d id volumeID
    unfold DM.hasSnapshot DM.getSnapshotAndVolume
    cases hv : alookup d.volumes volumeID with
    | none => simp
    | some v =>
      cases hs : alookup v.Snapshots id with
      | none => simp [hs]
      | some snap => simp [hs]

/-- Concrete instance of `backupParent_spec`: with
`LastSnapshotID = "s1"`, a backup of "s2" and a driver that has "s1",
the parent is "s1". -/
theorem backupParent_spec_witness :
    ((Volume.mk 4194304 "" "s1").LastSnapshotID ≠ "" ∧
     (Volume.mk 4194304 "" "s1").LastSnapshotID ≠ "s2" ∧
     (fun (_ _ : String) => true) (Volume.mk 4194304 "" "s1").LastSnapshotID "v" = true) ∧
    backupParent (Volume.mk 4194304 "" "s1") "s2" "v" (fun _ _ => true) =
      (Volume.mk 4194304 "" "s1").LastSnapshotID :=
  ⟨⟨by decide, by decide, rfl⟩,
    (backupParent_spec.1 (Volume.mk 4194304 "" "s1") "s2" "v" (fun _ _ => true)).1
      (by decide) (by decide) rfl⟩

end Convoy

namespace Convoy

/-! ### C7 and C8: failure paths of BackupSnapshot -/

/-- C7: when a SnapshotMap for the snapshot already exists in the store,
`BackupSnapshot` fails with the already-exists error and leaves the store
unchanged: the final state equals the initial one (no block blob upload,
no SnapshotMap write, no volume-record update) and no snapshot is ever
opened (empty driver trace). -/
theorem backupSnapshot_already_exists (Data : Type) (sd : SDriver Data)
    (checksum : Data → String) (snapshotID volumeID : String) (s : StoreState Data)
    (volume : Volume)
    (hvol : alookup s.volumes volumeID = some volume)
    (hex : (alookup s.snapshotCfgs (volumeID, snapshotID)).isSome = true) :
    backupSnapshot sd checksum snapshotID volumeID s =
      ⟨s, [], .error "snapshot already exists in blockstore!"⟩ := by
  simp [backupSnapshot, hvol, hex]

/-- Concrete instance of `backupSnapshot_already_exists`. -/
theorem backupSnapshot_already_exists_witness :
    (alookup (StoreState.mk (BlockStore.mk "u" "vfs" 2097152)
        [("v", Volume.mk 4194304 "" "")]
        [(("v", "s1"), SnapshotMap.mk "s1" [])] ([] : List ((String × String) × Unit))).volumes
        "v" = some (Volume.mk 4194304 "" "") ∧
     (alookup (StoreState.mk (BlockStore.mk "u" "vfs" 2097152)
        [("v", Volume.mk 4194304 "" "")]
        [(("v", "s1"), SnapshotMap.mk "s1" [])] ([] : List ((String × String) × Unit))).snapshotCfgs
        ("v", "s1")).isSome = true) ∧
    backupSnapshot
      (SDriver.mk (fun _ _ => false) (fun _ _ _ => .error "x") (fun _ _ => .ok ())
        (fun _ _ _ => .ok ()))
      (fun (_ : Unit) => "c") "s1" "v"
      (StoreState.mk (BlockStore.mk "u" "vfs" 2097152)
        [("v", Volume.mk 4194304 "" "")]
        [(("v", "s1"), SnapshotMap.mk "s1" [])] ([] : List ((String × String) × Unit))) =
      ⟨StoreState.mk (BlockStore.mk "u" "vfs" 2097152)
        [("v", Volume.mk 4194304 "" "")]
        [(("v", "s1"), SnapshotMap.mk "s1" [])] ([] : List ((String × String) × Unit)),
        [], .error "snapshot already exists in blockstore!"⟩ :=
  ⟨⟨by rfl, by rfl⟩,
    backupSnapshot_already_exists Unit
      (SDriver.mk (fun _ _ => false) (fun _ _ _ => .error "x") (fun _ _ => .ok ())
        (fun _ _ _ => .ok ()))
      (fun _ => "c") "s1" "v" _ (Volume.mk 4194304 "" "") (by rfl) (by rfl)⟩

/-- C8: when the delta returned by `CompareSnapshot` carries a block size
different from the registered store block size, `BackupSnapshot` fails
with the mismatch error before the snapshot is opened (empty driver
trace) and writes nothing to the store (the final state equals the
initial one). -/
theorem backupSnapshot_blocksize_mismatch (Data : Type) (sd : SDriver Data)
    (checksum : Data → String) (snapshotID volumeID : String) (s : StoreState Data)
    (volume : Volume) (lastMap : Option SnapshotMap) (delta : Mappings)
    (hvol : alookup s.volumes volumeID = some volume)
    (hex : (alookup s.snapshotCfgs (volumeID, snapshotID)).isSome = false)
    (hlast : backupLastMap s (backupParent volume snapshotID volumeID sd.hasSnapshot)
      volumeID = .ok lastMap)
    (hcmp : sd.compareSnapshot snapshotID
      (backupParent volume snapshotID volumeID sd.hasSnapshot) volumeID = .ok delta)
    (hbs : delta.BlockSize ≠ s.storeCfg.BlockSize) :
    backupSnapshot sd checksum snapshotID volumeID s =
      ⟨s, [], .error "does not support different block sizes between blockstore and driver"⟩ := by
  simp [backupSnapshot, hvol, hex, hlast, hcmp, hbs]

/-- Concrete instance of `backupSnapshot_blocksize_mismatch`: the store
uses 2 MiB blocks, the driver delta reports 4096-byte blocks. -/
theorem backupSnapshot_blocksize_mismatch_witness :
    (alookup (StoreState.mk (BlockStore.mk "u" "vfs" 2097152)
        [("v", Volume.mk 4194304 "" "")] [] ([] : List ((String × String) × Unit))).volumes
        "v" = some (Volume.mk 4194304 "" "") ∧
     (alookup (StoreState.mk (BlockStore.mk "u" "vfs" 2097152)
        [("v", Volume.mk 4194304 "" "")] [] ([] : List ((String × String) × Unit))).snapshotCfgs
        ("v", "s1")).isSome = false ∧
     (Mappings.mk [] 4096).BlockSize ≠
       (StoreState.mk (BlockStore.mk "u" "vfs" 2097152)
        [("v", Volume.mk 4194304 "" "")] [] ([] : List ((String × String) × Unit))).storeCfg.BlockSize) ∧
    backupSnapshot
      (SDriver.mk (fun _ _ => false) (fun _ _ _ => .ok (Mappings.mk [] 4096))
        (fun _ _ => .ok ()) (fun _ _ _ => .ok ()))
      (fun (_ : Unit) => "c") "s1" "v"
      (StoreState.mk (BlockStore.mk "u" "vfs" 2097152)
        [("v", Volume.mk 4194304 "" "")] [] ([] : List ((String × String) × Unit))) =
      ⟨StoreState.mk (BlockStore.mk "u" "vfs" 2097152)
        [("v", Volume.mk 4194304 "" "")] [] ([] : List ((String × String) × Unit)),
        [], .error "does not support different block sizes between blockstore and driver"⟩ :=
  ⟨⟨by rfl, by rfl, by decide⟩,
    backupSnapshot_blocksize_mismatch Unit
      (SDriver.mk (fun _ _ => false) (fun _ _ _ => .ok (Mappings.mk [] 4096))
        (fun _ _ => .ok ()) (fun _ _ _ => .ok ()))
      (fun _ => "c") "s1" "v" _ (Volume.mk 4194304 "" "") none (Mappings.mk [] 4096)
      (by rfl) (by rfl) (by rfl) (by rfl) (by decide)⟩

end Convoy

namespace Convoy

/-! ### C2: RemoveSnapshot garbage collection -/

theorem foldl_erase_mem (bs : List BlockMapping) :
    ∀ (cand : List String), cand.Nodup → ∀ c : String,
      (c ∈ bs.foldl (fun cd blk => cd.erase blk.BlockChecksum) cand ↔
        c ∈ cand ∧ c ∉ bs.map BlockMapping.BlockChecksum) := by
  induction bs with
  | nil => intro cand hnd c; simp
  | cons b bs ih =>
    intro cand hnd c
    simp only [List.foldl_cons]
    rw [ih (cand.erase b.BlockChecksum) (hnd.erase _) c]
    rw [List.Nodup.mem_erase_iff hnd]
    simp only [List.map_cons, List.mem_cons]
    tauto

theorem foldl_erase_nodup (bs : List BlockMapping) :
    ∀ (cand : List String), cand.Nodup →
      (bs.foldl (fun cd blk => cd.erase blk.BlockChecksum) cand).Nodup := by
  induction bs with
  | nil => intro cand hnd; simpa using hnd
  | cons b bs ih =>
    intro cand hnd
    simp only [List.foldl_cons]
    exact ih _ (hnd.erase _)

theorem gcDropMap_mem (cand : List String) (m : SnapshotMap) (hnd : cand.Nodup)
    (c : String) :
    c ∈ gcDropMap cand m ↔ c ∈ cand ∧ c ∉ mapChecksums m := by
  rw [gcDropMap, mapChecksums]
  exact foldl_erase_mem m.Blocks cand hnd c

theorem gcDropMap_nodup (cand : List String) (m : SnapshotMap) (hnd : cand.Nodup) :
    (gcDropMap cand m).Nodup := by
  rw [gcDropMap]
  exact foldl_erase_nodup m.Blocks cand hnd

theorem gcWalk_mem (maps : List SnapshotMap) :
    ∀ (cand : List String), cand.Nodup → ∀ c : String,
      (c ∈ gcWalk cand maps ↔ c ∈ cand ∧ ∀ m ∈ maps, c ∉ mapChecksums m) := by
  induction maps with
  | nil => intro cand hnd c; simp [gcWalk]
  | cons m maps ih =>
    intro cand hnd c
    rw [gcWalk]
    by_cases he : (gcDropMap cand m).isEmpty
    · rw [if_pos he]
      have hemp : gcDropMap cand m = [] := List.isEmpty_iff.mp he
      rw [hemp]
      simp only [List.not_mem_nil, false_iff, not_and]
      intro hc hall
      have hmem : c ∈ gcDropMap cand m :=
        (gcDropMap_mem cand m hnd c).mpr ⟨hc, hall m (List.mem_cons_self _ _)⟩
      rw [hemp] at hmem
      cases hmem
    · rw [if_neg he, ih _ (gcDropMap_nodup cand m hnd) c, gcDropMap_mem cand m hnd c]
      simp only [List.forall_mem_cons]
      tauto

theorem removeBlobs_lookup {Data : Type} (discard : List String) :
    ∀ (blobs : List ((String × String) × Data)) (volumeID c : String),
      alookup (removeBlobs blobs volumeID discard) (volumeID, c) =
        if c ∈ discard then none else alookup blobs (volumeID, c) := by
  induction discard with
  | nil => intro blobs volumeID c; simp [removeBlobs]
  | cons d rest ih =>
    intro blobs volumeID c
    have hstep : removeBlobs blobs volumeID (d :: rest) =
        removeBlobs (aremove blobs (volumeID, d)) volumeID rest := by
      simp [removeBlobs]
    rw [hstep, ih]
    by_cases hc : c = d
    · subst hc
      by_cases hr : c ∈ rest <;>
        simp [hr, alookup_aremove_self]
    · have hne : ((volumeID, c) : String × String) ≠ (volumeID, d) := by
        simp [hc]
      by_cases hr : c ∈ rest <;>
        simp [hr, hc, alookup_aremove_ne _ _ _ hne]

/-- C2: after a successful `RemoveSnapshot`, a block blob of the volume is
deleted (present before, absent after) exactly when its checksum occurs
in the removed SnapshotMap and in no surviving SnapshotMap of the same
volume; consequently every checksum referenced by a surviving SnapshotMap
that had its blob present still has it present.  The invariant hypothesis
`hinv` is spec invariant (2): the checksums of the removed map have their
blobs in the store. -/
theorem removeSnapshot_gc (Data : Type) (s s1 : StoreState Data)
    (snapshotID volumeID : String) (v : Volume) (sm : SnapshotMap)
    (hvol : alookup s.volumes volumeID = some v)
    (hmap : alookup s.snapshotCfgs (volumeID, snapshotID) = some sm)
    (hok : removeSnapshot s snapshotID volumeID = .ok s1)
    (hinv : ∀ c ∈ mapChecksums sm, (alookup s.blobs (volumeID, c)).isSome) :
    (∀ c : String,
      ((alookup s.blobs (volumeID, c)).isSome ∧ alookup s1.blobs (volumeID, c) = none) ↔
      (c ∈ mapChecksums sm ∧
        ∀ m ∈ snapshotsOf s1.snapshotCfgs volumeID, c ∉ mapChecksums m)) ∧
    (∀ m ∈ snapshotsOf s1.snapshotCfgs volumeID, ∀ c ∈ mapChecksums m,
      (alookup s.blobs (volumeID, c)).isSome → (alookup s1.blobs (volumeID, c)).isSome) := by
  simp only [removeSnapshot, hvol, hmap, Except.ok.injEq] at hok
  have hcfgs : s1.snapshotCfgs = aremove s.snapshotCfgs (volumeID, snapshotID) := by
    rw [← hok]
  have hblobs : s1.blobs = removeBlobs s.blobs volumeID
      (gcWalk (mapChecksums sm).dedup
        (snapshotsOf (aremove s.snapshotCfgs (volumeID, snapshotID)) volumeID)) := by
    rw [← hok]
  have hnd : ((mapChecksums sm).dedup).Nodup := List.nodup_dedup _
  have hdis : ∀ c : String,
      (c ∈ gcWalk (mapChecksums sm).dedup
          (snapshotsOf (aremove s.snapshotCfgs (volumeID, snapshotID)) volumeID) ↔
        (c ∈ mapChecksums sm ∧
          ∀ m ∈ snapshotsOf s1.snapshotCfgs volumeID, c ∉ mapChecksums m)) := by
    intro c
    rw [hcfgs, gcWalk_mem _ _ hnd c, List.mem_dedup]
  refine ⟨?_, ?_⟩
  · intro c
    by_cases hd : c ∈ gcWalk (mapChecksums sm).dedup
        (snapshotsOf (aremove s.snapshotCfgs (volumeID, snapshotID)) volumeID)
    · have hafter : alookup s1.blobs (volumeID, c) = none := by
        rw [hblobs, removeBlobs_lookup, if_pos hd]
      have hrhs := (hdis c).mp hd
      have hbefore : (alookup s.blobs (volumeID, c)).isSome = true := hinv c hrhs.1
      simp only [hafter, hbefore, and_true, true_and, true_iff]
      exact hrhs
    · have hafter : alookup s1.blobs (volumeID, c) = alookup s.blobs (volumeID, c) := by
        rw [hblobs, removeBlobs_lookup, if_neg hd]
      constructor
      · rintro ⟨hsome, hnone⟩
        rw [hafter] at hnone
        rw [hnone] at hsome
        cases hsome
      · intro hrhs
        exact absurd ((hdis c).mpr hrhs) hd
  · intro m hm c hc hsome
    have hout : c ∉ gcWalk (mapChecksums sm).dedup
        (snapshotsOf (aremove s.snapshotCfgs (volumeID, snapshotID)) volumeID) := by
      intro hcd
      exact absurd hc (((hdis c).mp hcd).2 m hm)
    rw [hblobs, removeBlobs_lookup, if_neg hout]
    exact hsome

end Convoy

namespace Convoy

/-- Concrete instance of `removeSnapshot_gc`, matching scenario S6 of the
spec: removing `s1` deletes blob a and keeps blobs b and c. -/
theorem removeSnapshot_gc_witness :
    (alookup gcWitnessStore.volumes "v" = some (Volume.mk 4194304 "" "s2") ∧
     alookup gcWitnessStore.snapshotCfgs ("v", "s1") =
       some (SnapshotMap.mk "s1" [BlockMapping.mk 0 "a", BlockMapping.mk 2097152 "b"]) ∧
     removeSnapshot gcWitnessStore "s1" "v" = .ok gcWitnessResult ∧
     (∀ c ∈ mapChecksums (SnapshotMap.mk "s1"
        [BlockMapping.mk 0 "a", BlockMapping.mk 2097152 "b"]),
       (alookup gcWitnessStore.blobs ("v", c)).isSome)) ∧
    ((∀ c : String,
      ((alookup gcWitnessStore.blobs ("v", c)).isSome ∧
        alookup gcWitnessResult.blobs ("v", c) = none) ↔
      (c ∈ mapChecksums (SnapshotMap.mk "s1"
          [BlockMapping.mk 0 "a", BlockMapping.mk 2097152 "b"]) ∧
        ∀ m ∈ snapshotsOf gcWitnessResult.snapshotCfgs "v", c ∉ mapChecksums m)) ∧
    (∀ m ∈ snapshotsOf gcWitnessResult.snapshotCfgs "v", ∀ c ∈ mapChecksums m,
      (alookup gcWitnessStore.blobs ("v", c)).isSome →
        (alookup gcWitnessResult.blobs ("v", c)).isSome)) :=
  ⟨⟨by rfl, by rfl, by rfl, by decide⟩,
    removeSnapshot_gc Unit gcWitnessStore gcWitnessResult "s1" "v"
      (Volume.mk 4194304 "" "s2")
      (SnapshotMap.mk "s1" [BlockMapping.mk 0 "a", BlockMapping.mk 2097152 "b"])
      (by rfl) (by rfl) (by rfl) (by decide)⟩

end Convoy

namespace Convoy

/-! ### C9: DeleteVolume never persists the image record -/

theorem deleteSnapshot_images (s : DM.DMState) (id volumeID : String) :
    ((DM.deleteSnapshot s id volumeID).1).images = s.images := by
  unfold DM.deleteSnapshot
  cases DM.getSnapshotAndVolume s id volumeID with
  | error e => rfl
  | ok p =>
    obtain ⟨snapshot, volume⟩ := p
    by_cases h : snapshot.DevID ∈ s.thinDevIDs <;> simp [h]

theorem deleteSnapshotsLoop_images (keys : List String) :
    ∀ (s : DM.DMState) (vid : String),
      ((DM.deleteSnapshotsLoop s keys vid).1).images = s.images := by
  induction keys with
  | nil => intro s vid; rfl
  | cons k rest ih =>
    intro s vid
    rw [DM.deleteSnapshotsLoop]
    have h1 := deleteSnapshot_images s k vid
    cases hds : DM.deleteSnapshot s k vid with
    | mk s1 r =>
      rw [hds] at h1
      cases r with
      | error e => exact h1
      | ok u => rw [ih s1 vid]; exact h1

/-- C9: `DeleteVolume` leaves the persisted image records untouched on
every path — the code removes the volume UUID only from the in-memory
copy of the image and never calls `saveImage` — so after deleting a
volume with a base image the on-disk image record still lists the
deleted volume in `VolumeRef` (contrary to the claim); concretely,
deleting volume `v` based on image `img` succeeds and `img` still
carries the reference to `v`. -/
theorem deleteVolume_images_unchanged :
    (∀ (s : DM.DMState) (id : String), ((DM.deleteVolume s id).1).images = s.images) ∧
    DM.deleteVolume c9State "v" = (c9After, .ok ()) ∧
    alookup c9After.images "img" =
      some (DM.Image.mk "img" "/images/img.img" 4194304 "/dev/loop0" ["v"]) := by
  refine ⟨?_, by rfl, by rfl⟩
  intro s id
  unfold DM.deleteVolume
  cases hv : alookup s.volumes id with
  | none => rfl
  | some volume =>
    dsimp only
    have h1 := deleteSnapshotsLoop_images (volume.Snapshots.map Prod.fst) s volume.UUID
    cases hl : DM.deleteSnapshotsLoop s (volume.Snapshots.map Prod.fst) volume.UUID with
    | mk s1 r =>
      rw [hl] at h1
      cases r with
      | error e => exact h1
      | ok u =>
        dsimp only
        by_cases hk : id ∈ s1.kernelDevs
        · rw [if_pos hk]
          by_cases hd : volume.DevID ∈ s1.thinDevIDs
          · rw [if_pos hd]
            by_cases hb : volume.Base = ""
            · rw [if_pos hb]
              exact h1
            · rw [if_neg hb]
              cases hi : alookup s1.images volume.Base with
              | none => exact h1
              | some image =>
                dsimp only
                by_cases hr : volume.UUID ∈ image.VolumeRef
                · rw [if_pos hr]
                  exact h1
                · rw [if_neg hr]
                  exact h1
          · rw [if_neg hd]
            exact h1
        · rw [if_neg hk]
          exact h1

end Convoy

namespace Convoy

/-! ### C3: DeleteVolume deletes the snapshots instead of failing -/

theorem aremove_of_forall_ne {α β : Type} [DecidableEq α] (l : List (α × β)) (k : α)
    (h : ∀ p ∈ l, p.1 ≠ k) : aremove l k = l := by
  induction l with
  | nil => rfl
  | cons p rest ih =>
    obtain ⟨a, b⟩ := p
    have ha : a ≠ k := h (a, b) (List.mem_cons_self _ _)
    rw [aremove, if_neg ha, ih (fun q hq => h q (List.mem_cons_of_mem _ hq))]

theorem deleteSnapshotsLoop_ok (snaps : List (String × DM.Snapshot)) :
    ∀ (s : DM.DMState) (vid : String) (v : DM.Volume),
      alookup s.volumes vid = some v →
      v.Snapshots = snaps →
      (snaps.map Prod.fst).Nodup →
      (∀ p ∈ snaps, p.2.DevID ∈ s.thinDevIDs) →
      (snaps.map (fun p => p.2.DevID)).Nodup →
      ∃ s1, DM.deleteSnapshotsLoop s (snaps.map Prod.fst) vid = (s1, .ok ()) ∧
        s1.kernelDevs = s.kernelDevs ∧ s1.images = s.images ∧
        s1.lastDevID = s.lastDevID ∧
        (∀ a ∈ s.thinDevIDs, a ∉ snaps.map (fun p => p.2.DevID) → a ∈ s1.thinDevIDs) := by
  induction snaps with
  | nil =>
    intro s vid v hv hsn hnd1 hmem hnd2
    exact ⟨s, rfl, rfl, rfl, rfl, fun a ha _ => ha⟩
  | cons p rest ih =>
    obtain ⟨k, sn⟩ := p
    intro s vid v hv hsn hnd1 hmem hnd2
    simp only [List.map_cons, List.nodup_cons] at hnd1 hnd2
    have hdev : sn.DevID ∈ s.thinDevIDs := hmem (k, sn) (List.mem_cons_self _ _)
    have hsnap : DM.getSnapshotAndVolume s k vid = .ok (sn, v) := by
      unfold DM.getSnapshotAndVolume
      rw [hv]
      dsimp only
      rw [hsn]
      simp [alookup]
    have hstep : DM.deleteSnapshot s k vid =
        ({ s with
            thinDevIDs := s.thinDevIDs.erase sn.DevID
            volumes := aupdate s.volumes vid
              { v with Snapshots := aremove v.Snapshots k } }, .ok ()) := by
      unfold DM.deleteSnapshot
      rw [hsnap]
      dsimp only
      rw [if_pos hdev]
    have hrem : aremove v.Snapshots k = rest := by
      rw [hsn, aremove, if_pos rfl]
      refine aremove_of_forall_ne rest k (fun q hq hqk => ?_)
      exact hnd1.1 (hqk ▸ List.mem_map_of_mem Prod.fst hq)
    obtain ⟨s1, hloop1, hker1, him1, hlast1, hthin1⟩ :=
      ih ({ s with
            thinDevIDs := s.thinDevIDs.erase sn.DevID
            volumes := aupdate s.volumes vid
              { v with Snapshots := aremove v.Snapshots k } }) vid
        { v with Snapshots := aremove v.Snapshots k }
        (alookup_aupdate_self _ _ _) (by simpa using hrem) hnd1.2
        (fun q hq => by
          have hne : q.2.DevID ≠ sn.DevID := by
            intro hcontra
            exact hnd2.1 (hcontra ▸ List.mem_map_of_mem (fun p => p.2.DevID) hq)
          exact (List.mem_erase_of_ne hne).mpr (hmem q (List.mem_cons_of_mem _ hq)))
        hnd2.2
    refine ⟨s1, ?_, hker1, him1, hlast1, ?_⟩
    · rw [List.map_cons, DM.deleteSnapshotsLoop, hstep]
      exact hloop1
    · intro a ha hnotin
      simp only [List.map_cons, List.mem_cons] at hnotin
      push_neg at hnotin
      refine hthin1 a ?_ ?_
      · exact (List.mem_erase_of_ne hnotin.1).mpr ha
      · exact hnotin.2

/-- C3 (amended): `DeleteVolume` on a volume that still has snapshots
does not fail with a busy-resource error and does not leave the records
intact: it first deletes every snapshot of the volume (thin device and
record), then removes the kernel device, deletes the volume thin device
and removes the volume record.  Under the device-consistency hypotheses
below it succeeds and the volume record is gone — whether or not
snapshots remained. -/
theorem deleteVolume_with_snapshots_succeeds (s : DM.DMState) (id : String) (v : DM.Volume)
    (hv : alookup s.volumes id = some v)
    (huuid : v.UUID = id)
    (hkeys : (v.Snapshots.map Prod.fst).Nodup)
    (hdevs : ∀ p ∈ v.Snapshots, p.2.DevID ∈ s.thinDevIDs)
    (hdevnd : (v.Snapshots.map (fun p => p.2.DevID)).Nodup)
    (hkern : id ∈ s.kernelDevs)
    (hvdev : v.DevID ∈ s.thinDevIDs)
    (hvdevn : v.DevID ∉ v.Snapshots.map (fun p => p.2.DevID))
    (hbase : v.Base = "") :
    ∃ s1, DM.deleteVolume s id = (s1, .ok ()) ∧ alookup s1.volumes id = none := by
  obtain ⟨s1, hloop, hker, him, hlast, hthin⟩ :=
    deleteSnapshotsLoop_ok v.Snapshots s id v hv rfl hkeys hdevs hdevnd
  unfold DM.deleteVolume
  rw [hv]
  dsimp only
  rw [huuid, hloop]
  dsimp only
  rw [if_pos (by rw [hker]; exact hkern)]
  rw [if_pos (show v.DevID ∈ s1.thinDevIDs from hthin v.DevID hvdev hvdevn)]
  rw [if_pos hbase]
  exact ⟨_, rfl, alookup_aremove_self _ _⟩

/-- C3 counterexample: on a pool where volume `v` (device 1, activated)
has one snapshot `sn` (device 2), `DeleteVolume` succeeds — it does not
return a busy-resource error and it removes the snapshot and volume
records, contradicting the claim that it must fail and leave the records
unchanged. -/
theorem deleteVolume_busy_counterexample :
    (alookup c3State.volumes "v").isSome ∧
    (alookup c3State.volumes "v").map (fun vol => vol.Snapshots.length) = some 1 ∧
    DM.deleteVolume c3State "v" = (c3After, .ok ()) ∧
    alookup c3After.volumes "v" = none := by
  refine ⟨by rfl, by rfl, by rfl, by rfl⟩

/-- Concrete instance of `deleteVolume_with_snapshots_succeeds` at
`c3State`. -/
theorem deleteVolume_with_snapshots_succeeds_witness :
    (alookup c3State.volumes "v" =
      some (DM.Volume.mk "v" 1 4194304 "" [("sn", DM.Snapshot.mk 2 false)]) ∧
     "v" ∈ c3State.kernelDevs ∧ (1 : Nat) ∈ c3State.thinDevIDs) ∧
    (∃ s1, DM.deleteVolume c3State "v" = (s1, .ok ()) ∧ alookup s1.volumes "v" = none) :=
  ⟨⟨by rfl, by decide, by decide⟩,
    deleteVolume_with_snapshots_succeeds c3State "v"
      (DM.Volume.mk "v" 1 4194304 "" [("sn", DM.Snapshot.mk 2 false)])
      (by rfl) (by rfl) (by decide) (by decide) (by decide) (by decide) (by decide)
      (by decide) (by rfl)⟩

end Convoy

namespace Convoy

/-! ### C4: activation failure does not advance the device counter -/

/-- C4 (amended): when the thin device is created but its activation
fails, `CreateVolume` deletes the created device and returns the error
with the driver state — including the persisted `LastDevID` counter —
exactly as before the call: the counter is NOT advanced past the
consumed device ID (the increment happens only on the success path), so
a subsequent successful `CreateVolume` allocates the same device ID
again. -/
theorem createVolume_activation_failure (s : DM.DMState) (id baseID : String) (size : Int)
    (imgOpt : Option DM.Image)
    (hsz : size % (s.thinpoolBlockSize * DM.SECTOR_SIZE) = 0)
    (hvol : alookup s.volumes id = none)
    (himg : DM.imageCheck s baseID size = .ok imgOpt)
    (hdev : s.lastDevID ∉ s.thinDevIDs) :
    DM.createVolume false s id baseID size = (s, .error "failed to activate device") := by
  unfold DM.createVolume
  rw [if_neg (by simp [hsz])]
  rw [if_neg (by simp [hvol])]
  rw [himg]
  dsimp only
  rw [if_neg hdev]
  rw [if_pos (by simp)]
  rw [List.erase_cons_head]

/-- C4 counterexample: starting from a fresh pool with `LastDevID = 1`, a
`CreateVolume` whose activation fails leaves `LastDevID` at 1 — the
counter is NOT advanced past the consumed device ID — and the next
successful `CreateVolume` allocates device ID 1 again (equal, not
strictly larger): device IDs ARE reused after an activation failure. -/
theorem createVolume_devid_reuse_counterexample :
    DM.createVolume false c4State "v" "" 2097152 =
      (c4State, .error "failed to activate device") ∧
    c4State.lastDevID = 1 ∧
    DM.createVolume true c4State "v" "" 2097152 = (c4SuccState, .ok ()) ∧
    alookup c4SuccState.volumes "v" = some (DM.Volume.mk "v" 1 2097152 "" []) ∧
    (DM.Volume.mk "v" 1 2097152 "" []).DevID = c4State.lastDevID := by
  refine ⟨by rfl, by rfl, by rfl, by rfl, by rfl⟩

/-- Concrete instance of `createVolume_activation_failure`. -/
theorem createVolume_activation_failure_witness :
    ((2097152 : Int) % (c4State.thinpoolBlockSize * DM.SECTOR_SIZE) = 0 ∧
     alookup c4State.volumes "v" = none ∧
     DM.imageCheck c4State "" 2097152 = .ok none ∧
     c4State.lastDevID ∉ c4State.thinDevIDs) ∧
    DM.createVolume false c4State "v" "" 2097152 =
      (c4State, .error "failed to activate device") :=
  ⟨⟨by decide, by rfl, by rfl, by decide⟩,
    createVolume_activation_failure c4State "v" "" 2097152 none
      (by decide) (by rfl) (by rfl) (by decide)⟩

end Convoy
